import Mathlib

/-!
Verification development for the PDF-slides-to-slideshow converter
(`src/app.py`).  The conversion pipeline (`create_html_slideshow`,
`get_audio_duration`, `create_slideshow_html`,
`create_downloadable_package`) and the client-side playback program
embedded in the generated HTML are modelled as pure Lean functions and a
step relation.  Durations are exact rationals (seconds, or milliseconds
where the source stores milliseconds); audio decoding is modelled by an
optional length in milliseconds (`none` = the pydub decode raised).
-/

/-- One caller-supplied audio resource: its basename (as produced by
`os.path.basename`), the result of probing it with pydub
(`some lengthMs` on success, `none` when `AudioSegment.from_file`
raises), and its payload (already base64-encoded, as the source encodes
it before embedding). -/
structure AudioFile where
  name : String
  lengthMs : Option Nat
  data : String
deriving Repr, DecidableEq

/-- `get_audio_duration` (src/app.py lines 44-50): `len(audio) / 1000.0`
on success, `None` on exception. -/
def get_audio_duration (a : AudioFile) : Option ℚ :=
  match a.lengthMs with
  | none => none
  | some ms => some ((ms : ℚ) / 1000)

/-- Substring containment on character lists: Python's `pat in s`. -/
def containsSub (pat : List Char) : List Char → Bool
  | [] => pat.isEmpty
  | c :: rest => pat.isPrefixOf (c :: rest) || containsSub pat rest

/-- Python `pat in s` for strings. -/
def strContains (s pat : String) : Bool :=
  containsSub pat.data s.data

/-- Python `s.lower()` (ASCII case-folding, character by character). -/
def pyLower (s : String) : String := String.mk (s.data.map Char.toLower)

/-- Python `s.endswith(suf)`. -/
def pyEndsWith (s suf : String) : Bool := suf.data.isSuffixOf s.data

/-- The audio-to-slide matching test of src/app.py line 67:
`f"slide_{slide_num}.mp3" in audio_name or f"slide_{slide_num}.wav" in
audio_name` — case-sensitive substring containment, NOT exact basename
equality. -/
def slideAudioMatch (slideNum : Nat) (audioName : String) : Bool :=
  strContains audioName ("slide_" ++ toString slideNum ++ ".mp3") ||
  strContains audioName ("slide_" ++ toString slideNum ++ ".wav")

/-- The inner loop of src/app.py lines 65-69: scan the uploaded audio
files in order and take the first whose basename matches (`break`). -/
def findAudio (slideNum : Nat) (audioFiles : List AudioFile) : Option AudioFile :=
  audioFiles.find? (fun a => slideAudioMatch slideNum a.name)

/-- Modelled from the spec: the binding rule of §4.2 — resource name
case-insensitively equal to the exact basename `slide_{i}.mp3` or
`slide_{i}.wav`.  Stated only to compare with the source's
`slideAudioMatch`; the source itself uses substring containment. -/
def specBindsName (slideNum : Nat) (audioName : String) : Bool :=
  pyLower audioName == "slide_" ++ toString slideNum ++ ".mp3" ||
  pyLower audioName == "slide_" ++ toString slideNum ++ ".wav"

/-- Duration resolution of src/app.py lines 62-75: default 10 seconds;
if an audio file is bound, probe it; `if audio_duration:` is Python
truthiness, so both a failed probe (`None`) and a zero-length probe
(`0.0`) leave the default in place. -/
def resolvedDuration (slideNum : Nat) (audioFiles : List AudioFile) : ℚ :=
  match findAudio slideNum audioFiles with
  | none => 10
  | some a =>
    match get_audio_duration a with
    | none => 10
    | some d => if d = 0 then 10 else d

/-- One element of the `slides_data` list built by `create_html_slideshow`
(src/app.py lines 92-99).  `duration` and `start_time` are in
milliseconds, exactly as stored (`duration * 1000`,
`total_duration * 1000`). -/
structure SlideData where
  slide_num : Nat
  image_data : String
  audio_data : Option String
  audio_format : Option String
  duration : ℚ
  start_time : ℚ
deriving Repr, DecidableEq

/-- The `audio_format` detection of src/app.py line 88:
`'mp3' if audio_path.lower().endswith('.mp3') else 'wav'`. -/
def detectFormat (a : AudioFile) : String :=
  if pyEndsWith (pyLower a.name) ".mp3" then "mp3" else "wav"

/-- The per-slide loop of `create_html_slideshow` (src/app.py lines
59-101): slides are the base64 payloads of the rasterized pages, in page
order; the accumulator carries the 1-based index offset and the running
`total_duration` in seconds.  Returns the `slides_data` list and the
final `total_duration`. -/
def buildSlides (audioFiles : List AudioFile) :
    List String → Nat → ℚ → List SlideData × ℚ
  | [], _, total => ([], total)
  | img :: rest, i, total =>
    let n := i + 1
    let d := resolvedDuration n audioFiles
    let bound := findAudio n audioFiles
    let ad := bound.map (fun a => a.data)
    let fmt := match bound with
      | some a => some (detectFormat a)
      | none => none
    let entry : SlideData :=
      { slide_num := n, image_data := img, audio_data := ad,
        audio_format := if ad.isSome then fmt else none,
        duration := d * 1000, start_time := total * 1000 }
    let r := buildSlides audioFiles rest (i + 1) (total + d)
    (entry :: r.1, r.2)

/-- The `slides_data` list produced by `create_html_slideshow` for a
given deck and audio set (loop entered with `total_duration = 0`). -/
def slidesData (slides : List String) (audioFiles : List AudioFile) : List SlideData :=
  (buildSlides audioFiles slides 0 0).1

/-- The final `total_duration` (seconds) of `create_html_slideshow`. -/
def totalDuration (slides : List String) (audioFiles : List AudioFile) : ℚ :=
  (buildSlides audioFiles slides 0 0).2

/-- The slide count returned by `create_html_slideshow`
(`len(slides_data)`, src/app.py line 114). -/
def numSlides (slides : List String) (audioFiles : List AudioFile) : Nat :=
  (slidesData slides audioFiles).length

/-- `create_html_slideshow` contains no warning emission: no warning
call (or any other warning mechanism) appears anywhere in the function
or in `get_audio_duration`, so the list of warnings recorded by a
conversion run is empty whatever the inputs. -/
def conversionWarnings (_slides : List String) (_audioFiles : List AudioFile) :
    List String := []

/-- The success gate of `main` (src/app.py line 518): the run is
surfaced as a success only when `num_slides > 0` (and the HTML file
exists, which the pure model always grants). -/
def conversionSuccess (slides : List String) (audioFiles : List AudioFile) : Bool :=
  decide (0 < numSlides slides audioFiles)

/-- Python `int()`: truncation toward zero. -/
def pyInt (q : ℚ) : ℤ := if 0 ≤ q then ⌊q⌋ else -⌊-q⌋

/-- Python `f"{z:02d}"`: pad to at least two characters with a leading
zero. -/
def pad2 (z : ℤ) : String := if 0 ≤ z ∧ z < 10 then ("0" ++ toString z) else toString z

/-- The `MM:SS` rendering used at src/app.py lines 237, 355 and 368:
`f"{int(total_duration//60):02d}:{int(total_duration%60):02d}"`
(`//` floors; `% 60` is `total - 60*floor(total/60)`; `int` truncates). -/
def fmtMMSS (total : ℚ) : String :=
  pad2 ⌊total / 60⌋ ++ ":" ++ pad2 (pyInt (total - 60 * ⌊total / 60⌋))

/-- JSON string literal (the base64 payloads and format tags contain no
characters needing escapes). -/
def jsonStr (s : String) : String := "\"" ++ s ++ "\""

/-- JSON rendering of an optional string (`None` becomes `null`). -/
def jsonOpt : Option String → String
  | none => "null"
  | some s => jsonStr s

/-- JSON object for one `slides_data` element, fields in the insertion
order of src/app.py lines 92-99.  Numeric fields are rendered with
Lean's `toString` on `ℚ`, standing in for Python's float repr. -/
def jsonSlide (e : SlideData) : String :=
  "\x7b\"slide_num\": " ++ toString e.slide_num ++
  ", \"image_data\": " ++ jsonStr e.image_data ++
  ", \"audio_data\": " ++ jsonOpt e.audio_data ++
  ", \"audio_format\": " ++ jsonOpt e.audio_format ++
  ", \"duration\": " ++ toString e.duration ++
  ", \"start_time\": " ++ toString e.start_time ++ "\x7d"

/-- `json.dumps(slides_data)` (src/app.py line 248). -/
def json_dumps (sd : List SlideData) : String :=
  "[" ++ String.intercalate (", ") (sd.map jsonSlide) ++ "]"

-- Fixed fragments of the HTML template of `create_slideshow_html`
-- (src/app.py lines 119-401).  The CSS and the JavaScript program text
-- are constants of the source; they are abbreviated here to structural
-- markers, since no claim depends on their exact characters — only the
-- values interpolated from the inputs are rendered exactly.
def htmlFrag1 : String :=
  "<!DOCTYPE html><html lang=\"en\"><head><meta charset=\"UTF-8\"><title>PDF Slideshow</title><style>(fixed stylesheet)</style></head><body><h1>PDF Slideshow Presentation</h1><div class=\"slideshow-container\"><div id=\"slides\"></div></div><div class=\"slide-info\"><span id=\"slide-counter\">Slide 1 of "

def htmlFrag2 : String :=
  "</span></div><div class=\"progress-bar\"><div class=\"progress\" id=\"progress\"></div></div><div class=\"duration-info\"><span id=\"time-info\">00:00 / "

def htmlFrag3 : String :=
  "</span></div><div class=\"controls\">(fixed buttons)</div><script>const slidesData = "

def htmlFrag4 : String :=
  ";(fixed player code: initSlides, showSlide, nextSlide, previousSlide, playSlideAudio, togglePlay, startSlideshow, stopSlideshow, resetSlideshow with time-info literal 00:00 / "

def htmlFrag5 : String :=
  ") (updateProgress dividing elapsed by "

def htmlFrag6 : String :=
  " and rendering the total "

def htmlFrag7 : String :=
  ") (fixed keyboard handler) initSlides();</script></body></html>"

/-- `create_slideshow_html(slides_data, total_duration)` (src/app.py
lines 116-403): a fixed template interpolating, in order, the slide
count (line 229), the formatted total duration (line 237), the JSON
dump of `slides_data` (line 248), the formatted total again inside
`resetSlideshow` (line 355), the raw total inside `updateProgress`
(line 362), and the formatted total once more (line 368). -/
def create_slideshow_html (slides_data : List SlideData) (total_duration : ℚ) : String :=
  htmlFrag1 ++ toString slides_data.length ++
  htmlFrag2 ++ fmtMMSS total_duration ++
  htmlFrag3 ++ json_dumps slides_data ++
  htmlFrag4 ++ fmtMMSS total_duration ++
  htmlFrag5 ++ toString total_duration ++
  htmlFrag6 ++ fmtMMSS total_duration ++
  htmlFrag7

/-- The `slideshow.html` written standalone by `create_html_slideshow`
(src/app.py lines 103-109). -/
def standalone_html (slides : List String) (audioFiles : List AudioFile) : String :=
  create_slideshow_html (slidesData slides audioFiles) (totalDuration slides audioFiles)

/-- The `slideshow.html` placed inside the ZIP by
`create_downloadable_package` (src/app.py line 411): the same template
applied to the same `slides_data`, with the total recomputed as
`sum(slide['duration'] for slide in slides_data) / 1000`. -/
def package_html (slides : List String) (audioFiles : List AudioFile) : String :=
  create_slideshow_html (slidesData slides audioFiles)
    (((slidesData slides audioFiles).map (fun e => e.duration)).sum / 1000)

/-!
The client-side playback program (src/app.py lines 247-398).  The
observable state is the current slide index, the `isPlaying` flag, the
in-flight audio element (identified by the slide it was created for;
`none` when absent or paused, since a paused element's `onended`
callback cannot fire) and the multiset of pending `setTimeout`
auto-advance timers, tagged by the slide that created them.  The source
stores no handle for these timers and never calls `clearTimeout`, so no
operation removes a timer except its own firing.  A deck is abstracted
to the per-slide `audio_data` presence flags.
-/

structure PlayerState where
  currentSlide : Nat
  isPlaying : Bool
  currentAudio : Option Nat
  pendingTimers : List Nat
deriving Repr, DecidableEq

/-- `playSlideAudio` (lines 293-320): pause and drop any in-flight
audio; then either start the current slide's audio or schedule a
`setTimeout` auto-advance for it.  The timer handle is discarded by the
source, so the timer is only ever removed by firing. -/
def playSlideAudio (deck : List Bool) (s : PlayerState) : PlayerState :=
  let s1 := { s with currentAudio := none }
  if deck.getD s1.currentSlide false then
    { s1 with currentAudio := some s1.currentSlide }
  else
    { s1 with pendingTimers := s1.pendingTimers ++ [s1.currentSlide] }

/-- `showSlide(n)` (lines 266-278): JavaScript
`(n + slides.length) % slides.length` on a possibly negative `n`, then
restart playback for the shown slide when playing. -/
def showSlide (deck : List Bool) (n : Int) (s : PlayerState) : PlayerState :=
  let len : Int := deck.length
  let s1 := { s with currentSlide := ((n + len) % len).toNat }
  if s1.isPlaying then playSlideAudio deck s1 else s1

/-- `stopSlideshow` (lines 339-348): clear `isPlaying`, pause the
in-flight audio, cancel the progress animation frame.  Pending timers
are not cleared. -/
def stopSlideshow (s : PlayerState) : PlayerState :=
  { s with isPlaying := false, currentAudio := none }

/-- `nextSlide` (lines 280-287). -/
def nextSlide (deck : List Bool) (s : PlayerState) : PlayerState :=
  if (s.currentSlide : Int) < (deck.length : Int) - 1 then
    showSlide deck ((s.currentSlide : Int) + 1) s
  else if s.isPlaying then stopSlideshow s
  else s

/-- `previousSlide` (lines 289-291). -/
def previousSlide (deck : List Bool) (s : PlayerState) : PlayerState :=
  showSlide deck ((s.currentSlide : Int) - 1) s

/-- `startSlideshow` (lines 331-337). -/
def startSlideshow (deck : List Bool) (s : PlayerState) : PlayerState :=
  playSlideAudio deck { s with isPlaying := true }

/-- `togglePlay` (lines 322-329). -/
def togglePlay (deck : List Bool) (s : PlayerState) : PlayerState :=
  if s.isPlaying then stopSlideshow s else startSlideshow deck s

/-- `resetSlideshow` (lines 350-356): stop, set `currentSlide = 0`,
then `showSlide(0)`. -/
def resetSlideshow (deck : List Bool) (s : PlayerState) : PlayerState :=
  showSlide deck 0 { stopSlideshow s with currentSlide := 0 }

/-- A pending `setTimeout` callback fires (lines 314-318): the timer is
consumed, and the callback advances only if still playing at fire
time. -/
def fireTimer (deck : List Bool) (t : Nat) (s : PlayerState) : PlayerState :=
  let s1 := { s with pendingTimers := s.pendingTimers.erase t }
  if s1.isPlaying then nextSlide deck s1 else s1

/-- The in-flight audio finishes (lines 305-311): `onended` checks
`isPlaying` and advances.  The 100 ms `setTimeout` wrapper around
`nextSlide()` is collapsed to an immediate call; modelling it as one
more pending trigger would only add further uncancelled triggers. -/
def audioEnded (deck : List Bool) (s : PlayerState) : PlayerState :=
  let s1 := { s with currentAudio := none }
  if s1.isPlaying then nextSlide deck s1 else s1

/-- One interleaving step of the single-threaded event loop: a user
action (button or its keyboard equivalent, lines 240-245 and 376-394)
or an internal callback whose precondition holds. -/
inductive PlayerStep (deck : List Bool) : PlayerState → PlayerState → Prop
  | toggle (s : PlayerState) : PlayerStep deck s (togglePlay deck s)
  | nextBtn (s : PlayerState) : PlayerStep deck s (nextSlide deck s)
  | prevBtn (s : PlayerState) : PlayerStep deck s (previousSlide deck s)
  | resetBtn (s : PlayerState) : PlayerStep deck s (resetSlideshow deck s)
  | timer (s : PlayerState) (t : Nat) (h : t ∈ s.pendingTimers) :
      PlayerStep deck s (fireTimer deck t s)
  | audioEnd (s : PlayerState) (a : Nat) (h : s.currentAudio = some a) :
      PlayerStep deck s (audioEnded deck s)

/-- The page loads showing slide 1, not playing, nothing in flight
(lines 249-253). -/
def initPlayer : PlayerState :=
  { currentSlide := 0, isPlaying := false, currentAudio := none, pendingTimers := [] }

/-- States the player can reach from page load. -/
def ReachablePlayer (deck : List Bool) (s : PlayerState) : Prop :=
  Relation.ReflTransGen (PlayerStep deck) initPlayer s

/-- Start offsets chain from `t`: each entry starts where the previous
one ended. -/
def chainedFrom : ℚ → List SlideData → Prop
  | _, [] => True
  | t, e :: es => e.start_time = t ∧ chainedFrom (t + e.duration) es

lemma buildSlides_length (fs : List AudioFile) (slides : List String) :
    ∀ i total, (buildSlides fs slides i total).1.length = slides.length := by
  induction slides with
  | nil => intro i total; simp [buildSlides]
  | cons img rest ih => intro i total; simp [buildSlides, ih]

lemma buildSlides_total (fs : List AudioFile) (slides : List String) :
    ∀ i total, 1000 * (buildSlides fs slides i total).2 =
      1000 * total + (((buildSlides fs slides i total).1).map (fun e => e.duration)).sum := by
  induction slides with
  | nil => intro i total; simp [buildSlides]
  | cons img rest ih =>
    intro i total
    simp only [buildSlides, List.map_cons, List.sum_cons]
    have h := ih (i + 1) (total + resolvedDuration (i + 1) fs)
    rw [h]; ring

lemma buildSlides_chained (fs : List AudioFile) (slides : List String) :
    ∀ i total, chainedFrom (1000 * total) (buildSlides fs slides i total).1 := by
  induction slides with
  | nil => intro i total; simp [buildSlides, chainedFrom]
  | cons img rest ih =>
    intro i total
    simp only [buildSlides, chainedFrom]
    constructor
    · ring
    · have h := ih (i + 1) (total + resolvedDuration (i + 1) fs)
      rw [show (1000 : ℚ) * (total + resolvedDuration (i + 1) fs) =
        1000 * total + resolvedDuration (i + 1) fs * 1000 by ring] at h
      exact h

lemma chainedFrom_get {t : ℚ} {es : List SlideData} (h : chainedFrom t es) :
    ∀ k (hk : k < es.length),
      (es.get ⟨k, hk⟩).start_time = t + ((es.take k).map (fun e => e.duration)).sum := by
  induction es generalizing t with
  | nil => intro k hk; simp at hk
  | cons e es ih =>
    intro k hk
    cases k with
    | zero => simpa using h.1
    | succ k =>
      have hk' : k < es.length := by simpa using hk
      have := ih h.2 k hk'
      simp only [List.get_cons_succ, List.take_succ_cons, List.map_cons, List.sum_cons, this]
      ring

lemma chainedFrom_getLast {t : ℚ} {es : List SlideData} (h : chainedFrom t es)
    (hne : es ≠ []) :
    (es.getLast hne).start_time + (es.getLast hne).duration =
      t + (es.map (fun e => e.duration)).sum := by
  induction es generalizing t with
  | nil => exact absurd rfl hne
  | cons e es ih =>
    cases es with
    | nil => simp [List.getLast, h.1]
    | cons e' es' =>
      have hne' : e' :: es' ≠ [] := by simp
      rw [List.getLast_cons hne']
      have := ih h.2 hne'
      simp only [List.map_cons, List.sum_cons] at this ⊢
      rw [this]; ring

lemma buildSlides_mem_duration (fs : List AudioFile) (slides : List String) :
    ∀ i total e, e ∈ (buildSlides fs slides i total).1 →
      ∃ n, e.duration = resolvedDuration n fs * 1000 := by
  induction slides with
  | nil => intro i total e he; simp [buildSlides] at he
  | cons img rest ih =>
    intro i total e he
    simp only [buildSlides, List.mem_cons] at he
    rcases he with rfl | he
    · exact ⟨i + 1, rfl⟩
    · exact ih (i + 1) (total + resolvedDuration (i + 1) fs) e he

lemma resolvedDuration_pos (n : Nat) (fs : List AudioFile) :
    0 < resolvedDuration n fs := by
  unfold resolvedDuration
  cases hfa : findAudio n fs with
  | none => norm_num
  | some a =>
    cases hms : a.lengthMs with
    | none => simp only [get_audio_duration, hms]; norm_num
    | some ms =>
      simp only [get_audio_duration, hms]
      by_cases hz : (ms : ℚ) / 1000 = 0
      · rw [if_pos hz]; norm_num
      · rw [if_neg hz]
        have : (0 : ℚ) ≤ (ms : ℚ) / 1000 := by positivity
        exact lt_of_le_of_ne this (Ne.symm hz)

lemma sum_map_div (l : List SlideData) (f : SlideData → ℚ) (c : ℚ) :
    (l.map (fun e => f e / c)).sum = (l.map f).sum / c := by
  induction l with
  | nil => simp
  | cons e es ih => simp [ih, add_div]

lemma numSlides_eq_length (slides : List String) (fs : List AudioFile) :
    numSlides slides fs = slides.length := by
  simpa [numSlides, slidesData] using buildSlides_length fs slides 0 0

/-- C1: the source's binder (src/app.py line 67) uses case-sensitive
substring containment, not exact case-folded basename equality:
`intro_slide_1.mp3` matches slide 1 and is bound to it although its
basename is not `slide_1.mp3`, while `SLIDE_1.MP3` — case-insensitively
equal to `slide_1.mp3` — does not match.  The `slide_10.mp3`-vs-slide-1
half of the claim does hold in the source, because the extension in the
searched pattern blocks that particular substring collision. -/
theorem binding_is_substring_not_exact :
    slideAudioMatch 1 "intro_slide_1.mp3" = true ∧
    specBindsName 1 "intro_slide_1.mp3" = false ∧
    findAudio 1 [⟨"intro_slide_1.mp3", some 3000, "x"⟩] =
      some ⟨"intro_slide_1.mp3", some 3000, "x"⟩ ∧
    slideAudioMatch 1 "SLIDE_1.MP3" = false ∧
    specBindsName 1 "SLIDE_1.MP3" = true ∧
    slideAudioMatch 1 "slide_10.mp3" = false := by
  refine ⟨by decide, by decide, by decide, by decide, by decide, by decide⟩

/-- C3 counterexample: a successful probe can return exactly 0 seconds
(an empty clip); the source's `if audio_duration:` truthiness test then
keeps the 10-second default instead of the probed value, so "on probe
success the resolved duration equals the probed duration" is false. -/
theorem zero_probe_not_taken :
    get_audio_duration ⟨"slide_1.mp3", some 0, "x"⟩ = some 0 ∧
    resolvedDuration 1 [⟨"slide_1.mp3", some 0, "x"⟩] = 10 ∧
    (10 : ℚ) ≠ 0 := by
  have h : findAudio 1 [⟨"slide_1.mp3", some 0, "x"⟩] =
      some ⟨"slide_1.mp3", some 0, "x"⟩ := by decide
  refine ⟨by simp [get_audio_duration], ?_, by norm_num⟩
  simp [resolvedDuration, h, get_audio_duration]

/-- C3 amended: if audio is bound and the probe succeeds with a nonzero
duration, that value is used; if the probe fails, returns 0, or no
audio is bound, the default 10.0 is used. -/
theorem duration_resolution_policy (n : Nat) (fs : List AudioFile) :
    (findAudio n fs = none → resolvedDuration n fs = 10) ∧
    ∀ a, findAudio n fs = some a →
      (∀ d, get_audio_duration a = some d → d ≠ 0 → resolvedDuration n fs = d) ∧
      (get_audio_duration a = none → resolvedDuration n fs = 10) ∧
      (get_audio_duration a = some 0 → resolvedDuration n fs = 10) := by
  constructor
  · intro h; simp [resolvedDuration, h]
  · intro a ha
    refine ⟨?_, ?_, ?_⟩
    · intro d hd hdz; simp [resolvedDuration, ha, hd, hdz]
    · intro hd; simp [resolvedDuration, ha, hd]
    · intro hd; simp [resolvedDuration, ha, hd]

/-- C3 witness: a 5200 ms clip bound to slide 1 resolves to 5.2 s. -/
theorem duration_resolution_policy_witness :
    resolvedDuration 1 [⟨"slide_1.mp3", some 5200, "x"⟩] = 26 / 5 :=
  ((duration_resolution_policy 1 [⟨"slide_1.mp3", some 5200, "x"⟩]).2
      ⟨"slide_1.mp3", some 5200, "x"⟩ (by decide)).1 (26 / 5)
    (by simp [get_audio_duration]; norm_num) (by norm_num)

/-- C4 counterexample: `create_html_slideshow` on a document yielding
zero slides returns normally — the empty `slides_data`, total duration
0 and slide count 0 — rather than raising.  No `EmptyTimelineError`
(or any other exception for the empty case) exists in the source. -/
theorem empty_deck_returns_timeline :
    slidesData [] [] = [] ∧ totalDuration [] [] = 0 ∧ numSlides [] [] = 0 :=
  ⟨rfl, rfl, rfl⟩

/-- C4 amended: for zero slides the builder returns an empty timeline
with slide count 0, and the caller's success gate
(`num_slides > 0`, src/app.py line 518) then reports the conversion as
failed — emptiness surfaces as a failure at the caller, not as an
`EmptyTimelineError` in the builder. -/
theorem empty_conversion_reported_failed (fs : List AudioFile) :
    slidesData [] fs = [] ∧ numSlides [] fs = 0 ∧
    conversionSuccess [] fs = false :=
  ⟨rfl, rfl, rfl⟩

/-- C5 counterexample: two-slide deck, the clip bound to slide 2 fails
the probe.  The slide degrades to the 10 s default and the run still
succeeds, but the warning list of the conversion is empty — no warning
referencing slide 2 (or anything else) is recorded, contradicting the
claim's "a warning referencing that slide's index is recorded". -/
theorem probe_failure_emits_no_warning :
    (slidesData ["a", "b"]
        [⟨"slide_1.mp3", some 5000, "p"⟩, ⟨"slide_2.mp3", none, "q"⟩]).map
      (fun e => e.duration) = [5000, 10000] ∧
    conversionWarnings ["a", "b"]
      [⟨"slide_1.mp3", some 5000, "p"⟩, ⟨"slide_2.mp3", none, "q"⟩] = [] ∧
    conversionSuccess ["a", "b"]
      [⟨"slide_1.mp3", some 5000, "p"⟩, ⟨"slide_2.mp3", none, "q"⟩] = true := by
  have h1 : findAudio 1 [⟨"slide_1.mp3", some 5000, "p"⟩, ⟨"slide_2.mp3", none, "q"⟩] =
      some ⟨"slide_1.mp3", some 5000, "p"⟩ := by decide
  have h2 : findAudio 2 [⟨"slide_1.mp3", some 5000, "p"⟩, ⟨"slide_2.mp3", none, "q"⟩] =
      some ⟨"slide_2.mp3", none, "q"⟩ := by decide
  refine ⟨?_, rfl, by rw [conversionSuccess, numSlides_eq_length]; rfl⟩
  simp [slidesData, buildSlides, resolvedDuration, h1, h2, get_audio_duration]
  norm_num

/-- C5 amended: a probe failure is non-fatal — the conversion still
produces one entry per slide and the affected slide's duration degrades
to the 10.0 s default — but no warning is recorded (the source has no
warning emission at all in the conversion). -/
theorem probe_failure_degrades_silently (slides : List String) (fs : List AudioFile)
    (n : Nat) (a : AudioFile) (hb : findAudio n fs = some a)
    (hf : a.lengthMs = none) :
    resolvedDuration n fs = 10 ∧
    numSlides slides fs = slides.length ∧
    conversionWarnings slides fs = [] := by
  refine ⟨?_, numSlides_eq_length slides fs, rfl⟩
  simp [resolvedDuration, hb, get_audio_duration, hf]

/-- C5 witness: the amended statement at the two-slide deck with the
corrupt `slide_2.mp3`. -/
theorem probe_failure_degrades_silently_witness :
    resolvedDuration 2 [⟨"slide_1.mp3", some 5000, "p"⟩, ⟨"slide_2.mp3", none, "q"⟩] = 10 ∧
    numSlides ["a", "b"] [⟨"slide_1.mp3", some 5000, "p"⟩, ⟨"slide_2.mp3", none, "q"⟩] =
      ["a", "b"].length ∧
    conversionWarnings ["a", "b"]
      [⟨"slide_1.mp3", some 5000, "p"⟩, ⟨"slide_2.mp3", none, "q"⟩] = [] :=
  probe_failure_degrades_silently ["a", "b"]
    [⟨"slide_1.mp3", some 5000, "p"⟩, ⟨"slide_2.mp3", none, "q"⟩] 2
    ⟨"slide_2.mp3", none, "q"⟩ (by decide) rfl

/-- C6: every entry of every built timeline has a strictly positive
duration, and in particular a bound clip whose probe returns exactly
0.0 s resolves to the 10 s default rather than 0. -/
theorem entry_durations_positive (slides : List String) (fs : List AudioFile) :
    (∀ e ∈ slidesData slides fs, 0 < e.duration) ∧
    ∀ n a, findAudio n fs = some a → get_audio_duration a = some 0 →
      resolvedDuration n fs = 10 := by
  constructor
  · intro e he
    obtain ⟨n, hn⟩ := buildSlides_mem_duration fs slides 0 0 e he
    rw [hn]
    exact mul_pos (resolvedDuration_pos n fs) (by norm_num)
  · intro n a ha h0
    simp [resolvedDuration, ha, h0]

/-- C6 witness: the single-slide deck whose clip probes to 0 ms — its
entry's duration is positive and the resolution gives the default. -/
theorem entry_durations_positive_witness :
    0 < ((slidesData ["a"] [⟨"slide_1.mp3", some 0, "x"⟩]).head
          (by simp [slidesData, buildSlides])).duration ∧
    resolvedDuration 1 [⟨"slide_1.mp3", some 0, "x"⟩] = 10 :=
  ⟨(entry_durations_positive ["a"] [⟨"slide_1.mp3", some 0, "x"⟩]).1 _
      (List.head_mem _),
   (entry_durations_positive ["a"] [⟨"slide_1.mp3", some 0, "x"⟩]).2 1
      ⟨"slide_1.mp3", some 0, "x"⟩ (by decide) (by simp [get_audio_duration])⟩

/-- C2: in every built timeline, entry `i` starts (in seconds) at the
sum of the durations of entries `0..i-1` — entry 0 at offset 0 — and
the last entry's start plus its duration equals the accumulated total
duration exactly; consecutive entries thus have no gap and no
overlap. -/
theorem timeline_offsets_exact (slides : List String) (fs : List AudioFile)
    (hne : slides ≠ []) :
    (∀ k (hk : k < (slidesData slides fs).length),
        ((slidesData slides fs).get ⟨k, hk⟩).start_time / 1000 =
          (((slidesData slides fs).take k).map (fun e => e.duration / 1000)).sum) ∧
    ∀ h : slidesData slides fs ≠ [],
      ((slidesData slides fs).getLast h).start_time / 1000 +
        ((slidesData slides fs).getLast h).duration / 1000 =
        totalDuration slides fs := by
  have hch : chainedFrom 0 (slidesData slides fs) := by
    have := buildSlides_chained fs slides 0 0
    simpa [slidesData] using this
  have hsum : ((slidesData slides fs).map (fun e => e.duration)).sum =
      1000 * totalDuration slides fs := by
    have := buildSlides_total fs slides 0 0
    simp only [mul_zero, zero_add] at this
    simpa [slidesData, totalDuration] using this.symm
  constructor
  · intro k hk
    have h1 := chainedFrom_get hch k hk
    rw [h1, zero_add, sum_map_div]
  · intro h
    have h2 := chainedFrom_getLast hch h
    rw [zero_add, hsum] at h2
    have h1000 : (1000 : ℚ) ≠ 0 := by norm_num
    field_simp
    linarith [h2]

/-- C2 witness: the one-slide no-audio deck. -/
theorem timeline_offsets_exact_witness :
    (∀ k (hk : k < (slidesData ["a"] []).length),
        ((slidesData ["a"] []).get ⟨k, hk⟩).start_time / 1000 =
          (((slidesData ["a"] []).take k).map (fun e => e.duration / 1000)).sum) ∧
    ∀ h : slidesData ["a"] [] ≠ [],
      ((slidesData ["a"] []).getLast h).start_time / 1000 +
        ((slidesData ["a"] []).getLast h).duration / 1000 =
        totalDuration ["a"] [] :=
  timeline_offsets_exact ["a"] [] (by simp)

lemma playSlideAudio_currentSlide (deck : List Bool) (s : PlayerState) :
    (playSlideAudio deck s).currentSlide = s.currentSlide := by
  unfold playSlideAudio
  dsimp only
  split <;> rfl

lemma playSlideAudio_isPlaying (deck : List Bool) (s : PlayerState) :
    (playSlideAudio deck s).isPlaying = s.isPlaying := by
  unfold playSlideAudio
  dsimp only
  split <;> rfl

lemma showSlide_currentSlide (deck : List Bool) (n : Int) (s : PlayerState) :
    (showSlide deck n s).currentSlide =
      ((n + (deck.length : Int)) % (deck.length : Int)).toNat := by
  unfold showSlide
  dsimp only
  split
  · rw [playSlideAudio_currentSlide]
  · rfl

lemma showSlide_isPlaying (deck : List Bool) (n : Int) (s : PlayerState) :
    (showSlide deck n s).isPlaying = s.isPlaying := by
  unfold showSlide
  dsimp only
  split
  · rw [playSlideAudio_isPlaying]
  · rfl

lemma nextSlide_at_last (deck : List Bool) (s : PlayerState)
    (hp : s.isPlaying = true)
    (hl : (s.currentSlide : Int) = (deck.length : Int) - 1) :
    nextSlide deck s = stopSlideshow s := by
  unfold nextSlide
  rw [hl]
  simp [hp]

/-- C7: the claimed invariant fails in the source.  Starting playback
for a new slide pauses the in-flight audio, but the auto-advance
`setTimeout` handle is never stored or cleared, so the previous slide's
pending timer survives.  On a three-slide deck with no audio, pressing
Play and then Next reaches a state in which auto-advance timers for two
different slides (slide 1 and slide 2) are pending at once; the stale
slide-1 timer then fires while playing and advances the freshly shown
slide early. -/
theorem overlapping_timers_reachable :
    ReachablePlayer [false, false, false]
      { currentSlide := 1, isPlaying := true, currentAudio := none,
        pendingTimers := [0, 1] } ∧
    (0 : Nat) ≠ 1 ∧
    (fireTimer [false, false, false] 0
      { currentSlide := 1, isPlaying := true, currentAudio := none,
        pendingTimers := [0, 1] }).currentSlide = 2 := by
  refine ⟨?_, by decide, by decide⟩
  have h1 : PlayerStep [false, false, false] initPlayer
      { currentSlide := 0, isPlaying := true, currentAudio := none,
        pendingTimers := [0] } := by
    have h := @PlayerStep.toggle [false, false, false] initPlayer
    rwa [show togglePlay [false, false, false] initPlayer =
        { currentSlide := 0, isPlaying := true, currentAudio := none,
          pendingTimers := [0] } from by decide] at h
  have h2 : PlayerStep [false, false, false]
      { currentSlide := 0, isPlaying := true, currentAudio := none,
        pendingTimers := [0] }
      { currentSlide := 1, isPlaying := true, currentAudio := none,
        pendingTimers := [0, 1] } := by
    have h := @PlayerStep.nextBtn [false, false, false]
      { currentSlide := 0, isPlaying := true, currentAudio := none,
        pendingTimers := [0] }
    rwa [show nextSlide [false, false, false]
        { currentSlide := 0, isPlaying := true, currentAudio := none,
          pendingTimers := [0] } =
        { currentSlide := 1, isPlaying := true, currentAudio := none,
          pendingTimers := [0, 1] } from by decide] at h
  exact Relation.ReflTransGen.tail (Relation.ReflTransGen.tail
    Relation.ReflTransGen.refl h1) h2

/-- C8: when auto-advance (timer firing or audio ending) happens on the
last slide while playing, the player stops — `isPlaying` becomes false,
no loop — and the current slide index is left where it was; the index
goes back to slide 1 (index 0) only when a reset is issued. -/
theorem end_of_last_slide_stops (deck : List Bool) (s : PlayerState) (t : Nat)
    (hp : s.isPlaying = true)
    (hl : (s.currentSlide : Int) = (deck.length : Int) - 1) :
    (fireTimer deck t s).isPlaying = false ∧
    (fireTimer deck t s).currentSlide = s.currentSlide ∧
    (audioEnded deck s).isPlaying = false ∧
    (audioEnded deck s).currentSlide = s.currentSlide ∧
    (resetSlideshow deck (fireTimer deck t s)).currentSlide = 0 := by
  have hreset : ∀ s' : PlayerState, (resetSlideshow deck s').currentSlide = 0 := by
    intro s'
    unfold resetSlideshow stopSlideshow
    rw [showSlide_currentSlide]
    simp
  have hfire : fireTimer deck t s =
      stopSlideshow { s with pendingTimers := s.pendingTimers.erase t } := by
    unfold fireTimer
    dsimp only
    rw [if_pos hp]
    exact nextSlide_at_last deck _ hp hl
  have haudio : audioEnded deck s = stopSlideshow { s with currentAudio := none } := by
    unfold audioEnded
    dsimp only
    rw [if_pos hp]
    exact nextSlide_at_last deck _ hp hl
  refine ⟨?_, ?_, ?_, ?_, hreset _⟩
  · rw [hfire]; rfl
  · rw [hfire]; rfl
  · rw [haudio]; rfl
  · rw [haudio]; rfl

/-- C8 witness: a two-slide deck, playing on the last slide, its timer
fires. -/
theorem end_of_last_slide_stops_witness :
    (fireTimer [false, true] 0 ⟨1, true, some 1, [0]⟩).isPlaying = false ∧
    (fireTimer [false, true] 0 ⟨1, true, some 1, [0]⟩).currentSlide =
      (⟨1, true, some 1, [0]⟩ : PlayerState).currentSlide ∧
    (audioEnded [false, true] ⟨1, true, some 1, [0]⟩).isPlaying = false ∧
    (audioEnded [false, true] ⟨1, true, some 1, [0]⟩).currentSlide =
      (⟨1, true, some 1, [0]⟩ : PlayerState).currentSlide ∧
    (resetSlideshow [false, true]
      (fireTimer [false, true] 0 ⟨1, true, some 1, [0]⟩)).currentSlide = 0 :=
  end_of_last_slide_stops [false, true] ⟨1, true, some 1, [0]⟩ 0 rfl (by decide)

/-- C9: invoking `previousSlide` while the first slide is shown wraps
to the last slide — `(n + length) % length` on `n = -1` — in any
playback state, and the playing flag is untouched. -/
theorem previous_from_first_wraps (deck : List Bool) (s : PlayerState)
    (h0 : s.currentSlide = 0) (hlen : 1 ≤ deck.length) :
    (previousSlide deck s).currentSlide = deck.length - 1 ∧
    (previousSlide deck s).isPlaying = s.isPlaying := by
  constructor
  · unfold previousSlide
    rw [showSlide_currentSlide, h0]
    have hcast : ((0 : Nat) : Int) - 1 + (deck.length : Int) =
        (deck.length : Int) - 1 := by push_cast; ring
    rw [hcast, Int.emod_eq_of_lt (by omega) (by omega)]
    omega
  · unfold previousSlide
    rw [showSlide_isPlaying]

/-- C9 witness: three-slide deck at page load (slide index 0, stopped);
previous wraps to index 2. -/
theorem previous_from_first_wraps_witness :
    (previousSlide [false, false, false] initPlayer).currentSlide =
      [false, false, false].length - 1 ∧
    (previousSlide [false, false, false] initPlayer).isPlaying =
      initPlayer.isPlaying :=
  previous_from_first_wraps [false, false, false] initPlayer rfl (by decide)

/-- C10: the `slideshow.html` placed in the downloadable ZIP is
character-for-character the standalone `slideshow.html` of the same
run: the package regenerates the template from the same `slides_data`,
and the total it passes — the sum of per-slide millisecond durations
divided by 1000 — equals the accumulated total duration exactly. -/
theorem package_html_matches_standalone (slides : List String)
    (fs : List AudioFile) :
    package_html slides fs = standalone_html slides fs ∧
    ((slidesData slides fs).map (fun e => e.duration)).sum / 1000 =
      totalDuration slides fs := by
  have hsum : ((slidesData slides fs).map (fun e => e.duration)).sum =
      1000 * totalDuration slides fs := by
    have := buildSlides_total fs slides 0 0
    simp only [mul_zero, zero_add] at this
    simpa [slidesData, totalDuration] using this.symm
  have hdiv : ((slidesData slides fs).map (fun e => e.duration)).sum / 1000 =
      totalDuration slides fs := by
    rw [hsum, mul_comm, mul_div_assoc]
    norm_num
  exact ⟨by unfold package_html standalone_html; rw [hdiv], hdiv⟩
